import Mathlib

/-!
Shallow embedding of `libs/vr/libbufferhub/consumer_buffer.cpp`
(`android::dvr::ConsumerBuffer`): the consumer side of the BufferHub
shared-memory hand-off protocol.

Shared memory (StateWord, FenceStateWord, canonical metadata, user-metadata
blob, shared fence slots) is modelled as an explicit `SharedState` value that
each operation threads through.  Machine words are `Nat` truncated to 64 bits
where the code computes in `uint64_t`.  Fallible externals (fence duplication,
fence publication, authority notification over the RPC channel) are driven by
an `Env` oracle describing how the external world answers during the call.
Helpers declared outside this source file (`BufferHubDefs`,
`BufferHubBase::CheckMetadata`, `BufferHubBase::UpdateSharedFence`,
`pdx::LocalHandle::Duplicate`) are modelled from the spec, as marked.
-/

namespace BufferHub

/-- `errno` value for invalid argument (EINVAL = 22); operations return `-EINVAL`. -/
def EINVAL : Int := 22

/-- `errno` value for device busy (EBUSY = 16), the state-conflict error. -/
def EBUSY : Int := 16

/-- `errno` value for an input/output error (EIO = 5). -/
def EIOerr : Int := 5

/-- Mask of a 64-bit machine word: `2 ^ 64 - 1`. -/
def mask64 : Nat := 2 ^ 64 - 1

/-- Modelled from the spec: `BufferHubDefs::kProducerStateBit`, the single
producer-ownership bit of the StateWord; the spec fixes one bit for the
producer and leaves the remaining bits as consumer slots, so the producer bit
is taken to be bit 0. -/
def kProducerStateBit : Nat := 1

/-- Modelled from the spec: `BufferHubDefs::kConsumerStateMask`, the mask of
all consumer slot bits — every bit of the 64-bit word other than the
producer-ownership bit. -/
def kConsumerStateMask : Nat := mask64 ^^^ kProducerStateBit

/-- Modelled from the spec: `BufferHubDefs::IsBufferPosted` — the predicate
`Posted(state, bit)`: the producer-ownership bit is set and the given consumer
bit is clear. -/
def IsBufferPosted (state bit : Nat) : Bool :=
  (state &&& kProducerStateBit != 0) && (state &&& bit == 0)

/-- Modelled from the spec: `BufferHubDefs::IsBufferAcquired` — the predicate
`Acquired(state)`: the producer-ownership bit is set and at least one consumer
bit is set. -/
def IsBufferAcquired (state : Nat) : Bool :=
  (state &&& kProducerStateBit != 0) && (state &&& kConsumerStateMask != 0)

/-- Modelled from the spec: `BufferHubDefs::ModifyBufferState`, the
compare-and-swap loop that atomically clears `clearMask` and sets `setMask` in
the StateWord.  Its functional effect on the 64-bit word value is
`(state AND NOT clearMask) OR setMask`, truncated to 64 bits. -/
def ModifyBufferState (state clearMask setMask : Nat) : Nat :=
  ((state &&& (mask64 ^^^ (clearMask &&& mask64))) ||| (setMask &&& mask64))

/-- A `pdx::LocalHandle`: a file-descriptor wrapper.  `fd < 0` is the invalid
(empty) handle. -/
structure LocalHandle where
  fd : Int
deriving DecidableEq

/-- A handle is valid iff its descriptor is non-negative. -/
def LocalHandle.IsValid (h : LocalHandle) : Bool := decide (0 ≤ h.fd)

/-- The invalid handle `LocalHandle()`. -/
def invalidHandle : LocalHandle := ⟨-1⟩

/-- Modelled from the spec: `pdx::LocalHandle::Duplicate` — duplication yields
an independent handle observing the same completion signal, and duplication
may fail (the `dup` syscall fails, or the source handle is invalid), in which
case the result is the invalid handle.  The oracle flag `ok` says whether the
underlying syscall succeeds. -/
def LocalHandle.Duplicate (h : LocalHandle) (ok : Bool) : LocalHandle :=
  if ok && h.IsValid then ⟨h.fd⟩ else ⟨-1⟩

/-- The canonical metadata struct `DvrNativeBufferMetadata`: the
user-metadata byte size, the user-metadata reference field (a process-local
address, transmitted as a 64-bit integer), and the remaining opaque
producer-authored payload fields. -/
structure DvrNativeBufferMetadata where
  user_metadata_size : Nat
  user_metadata_ptr : Nat
  payload : List Nat
deriving DecidableEq

/-- The zero `DvrNativeBufferMetadata`, as built by the fence-only `Release`
and `ReleaseAsync()` entry points. -/
def defaultMeta : DvrNativeBufferMetadata := ⟨0, 0, []⟩

/-- The shared-memory region of one buffer, as seen by every party:
the StateWord, the FenceStateWord, the canonical metadata struct, the
user-metadata blob bytes, and the shared release-fence slot. -/
structure SharedState where
  bufferState : Nat
  fenceState : Nat
  metadata : DvrNativeBufferMetadata
  userBlob : List Nat
  releaseFenceSlot : LocalHandle
deriving DecidableEq

/-- The local, per-consumer side of a `ConsumerBuffer` object:
`buffer_state_bit()` (the bit mask exclusively assigned to this consumer),
the fixed user-metadata capacity `user_metadata_size_`, the local mapping
address `user_metadata_ptr_` of the user-metadata blob, and the local handle
`shared_acquire_fence_` to the shared acquire-fence. -/
structure ConsumerBuffer where
  stateBit : Nat
  userMetadataCapacity : Nat
  userMetadataPtr : Nat
  sharedAcquireFence : LocalHandle
deriving DecidableEq

/-- Oracle for the fallible externals touched during one operation:
whether fence duplication succeeds, whether release-fence publication
succeeds, and the error codes (0 = success) answered by the authority for the
`ConsumerAcquire` and `ConsumerRelease` notifications. -/
structure Env where
  dupOk : Bool
  publishOk : Bool
  acquireNotifyErr : Nat
  releaseNotifyErr : Nat
deriving DecidableEq

/-- Modelled from the spec: `BufferHubBase::CheckMetadata` (declared in the
buffer-hub base class, outside this source file) — every metadata read/write
enforces `size ≤ capacity`; violation fails with an invalid-argument error. -/
def CheckMetadata (c : ConsumerBuffer) (size : Nat) : Int :=
  if c.userMetadataCapacity < size then -EINVAL else 0

/-- Modelled from the spec: `BufferHubBase::UpdateSharedFence` (declared in
the buffer-hub base class, outside this source file) — publishes the caller
release fence into the shared release-fence slot; a publication failure is
surfaced as an I/O error and leaves the slot unchanged. -/
def UpdateSharedFence (env : Env) (fence : LocalHandle) (s : SharedState) :
    Int × SharedState :=
  if env.publishOk then (0, { s with releaseFenceSlot := fence })
  else (-EIOerr, s)

/-- Result of `LocalAcquire`/`AcquireAsync`: the returned error code, the
shared memory afterwards, the value written through `out_meta` (if any), and
the value stored through `out_fence` (if the store was performed). -/
structure AcquireResult where
  ret : Int
  shared : SharedState
  outMeta : Option DvrNativeBufferMetadata
  outFenceWrite : Option LocalHandle
deriving DecidableEq

set_option linter.unusedVariables false in
/-- `ConsumerBuffer::LocalAcquire(out_meta, out_fence)`.  The two `Bool`
arguments model whether the `out_meta` and `out_fence` pointer arguments are
non-null.  Only `out_meta` is null-checked by the code; the store through
`out_fence` (when the producer has a pending fence) is performed without any
check of `outFenceNonNull`. -/
def LocalAcquire (c : ConsumerBuffer) (env : Env) (s : SharedState)
    (outMetaNonNull : Bool) (outFenceNonNull : Bool) : AcquireResult :=
  if !outMetaNonNull then ⟨-EINVAL, s, none, none⟩
  else
    let buffer_state := s.bufferState
    if !IsBufferPosted buffer_state c.stateBit then ⟨-EBUSY, s, none, none⟩
    else
      let m0 := s.metadata
      let m1 :=
        if m0.user_metadata_size != 0 then
          { m0 with user_metadata_ptr := c.userMetadataPtr }
        else
          { m0 with user_metadata_ptr := 0 }
      let fence_state := s.fenceState
      let fw :=
        if fence_state &&& kProducerStateBit != 0 then
          some (c.sharedAcquireFence.Duplicate env.dupOk)
        else none
      let s1 := { s with bufferState := ModifyBufferState s.bufferState 0 c.stateBit }
      ⟨0, s1, some m1, fw⟩

/-- Result of the blocking `Acquire`: the error code, the shared memory
afterwards, the value stored through `ready_fence` (if stored), and the bytes
copied out to the caller `meta` area (if the copy was performed). -/
structure FullAcquireResult where
  ret : Int
  shared : SharedState
  outFenceWrite : Option LocalHandle
  userCopy : Option (List Nat)
deriving DecidableEq

/-- `ConsumerBuffer::Acquire(ready_fence, meta, user_metadata_size)`:
capacity check, `LocalAcquire` into a stack-local canonical struct, optional
copy-out of the user-metadata blob, then the blocking `ConsumerAcquire`
notification to the authority. -/
def Acquire (c : ConsumerBuffer) (env : Env) (s : SharedState)
    (readyFenceNonNull : Bool) (metaNonNull : Bool) (user_metadata_size : Nat) :
    FullAcquireResult :=
  let e := CheckMetadata c user_metadata_size
  if e != 0 then ⟨e, s, none, none⟩
  else
    let r := LocalAcquire c env s true readyFenceNonNull
    if r.ret != 0 then ⟨r.ret, r.shared, none, none⟩
    else
      let canonical := r.outMeta.getD defaultMeta
      let userCopy :=
        if metaNonNull && (user_metadata_size != 0) then
          if canonical.user_metadata_ptr != 0 then
            some (s.userBlob.take user_metadata_size)
          else none
        else none
      if env.acquireNotifyErr != 0 then
        ⟨-(env.acquireNotifyErr : Int), r.shared, r.outFenceWrite, userCopy⟩
      else ⟨0, r.shared, r.outFenceWrite, userCopy⟩

/-- `ConsumerBuffer::Acquire(ready_fence)`: the two-argument overload, which
forwards with a null `meta` and size 0. -/
def AcquireNoMeta (c : ConsumerBuffer) (env : Env) (s : SharedState)
    (readyFenceNonNull : Bool) : FullAcquireResult :=
  Acquire c env s readyFenceNonNull false 0

/-- `ConsumerBuffer::AcquireAsync(out_meta, out_fence)`: `LocalAcquire`, then
the one-way `ConsumerAcquire` impulse to the authority. -/
def AcquireAsync (c : ConsumerBuffer) (env : Env) (s : SharedState)
    (outMetaNonNull : Bool) (outFenceNonNull : Bool) : AcquireResult :=
  let r := LocalAcquire c env s outMetaNonNull outFenceNonNull
  if r.ret != 0 then r
  else if env.acquireNotifyErr != 0 then { r with ret := -(env.acquireNotifyErr : Int) }
  else r

/-- Result of a release-side operation: the error code and the shared memory
afterwards. -/
structure ReleaseResult where
  ret : Int
  shared : SharedState
deriving DecidableEq

/-- The `memcpy(user_metadata_ptr_, metadata_src, size)` of `LocalRelease`:
the first `size` bytes of the blob are overwritten by the first `size` bytes
of the source, the rest of the blob is untouched. -/
def writeUserBlob (blob src : List Nat) (size : Nat) : List Nat :=
  src.take size ++ blob.drop size

/-- `ConsumerBuffer::LocalRelease(meta, release_fence)`: capacity check on
`meta->user_metadata_size`, then the Acquired-state check, then the optional
copy of caller bytes into the shared user-metadata blob, then publication of
the release fence.  `srcBytes` models the bytes readable at
`meta->user_metadata_ptr` in the caller process.  The StateWord is never
touched: flipping the producer bit back is the job of the external
authority. -/
def LocalRelease (c : ConsumerBuffer) (env : Env) (s : SharedState)
    (meta : DvrNativeBufferMetadata) (srcBytes : List Nat)
    (release_fence : LocalHandle) : ReleaseResult :=
  let e := CheckMetadata c meta.user_metadata_size
  if e != 0 then ⟨e, s⟩
  else if !IsBufferAcquired s.bufferState then ⟨-EBUSY, s⟩
  else
    let s1 :=
      if (meta.user_metadata_ptr != 0) && (meta.user_metadata_size != 0) then
        { s with userBlob := writeUserBlob s.userBlob srcBytes meta.user_metadata_size }
      else s
    let p := UpdateSharedFence env release_fence s1
    if p.1 != 0 then ⟨p.1, p.2⟩ else ⟨0, p.2⟩

/-- `ConsumerBuffer::Release(release_fence)`: `LocalRelease` with a zero
metadata struct, then the blocking `ConsumerRelease` notification. -/
def Release (c : ConsumerBuffer) (env : Env) (s : SharedState)
    (release_fence : LocalHandle) : ReleaseResult :=
  let r := LocalRelease c env s defaultMeta [] release_fence
  if r.ret != 0 then r
  else if env.releaseNotifyErr != 0 then ⟨-(env.releaseNotifyErr : Int), r.shared⟩
  else ⟨0, r.shared⟩

/-- `ConsumerBuffer::ReleaseAsync(meta, release_fence)`: `LocalRelease`,
then the one-way `ConsumerRelease` impulse. -/
def ReleaseAsync (c : ConsumerBuffer) (env : Env) (s : SharedState)
    (meta : DvrNativeBufferMetadata) (srcBytes : List Nat)
    (release_fence : LocalHandle) : ReleaseResult :=
  let r := LocalRelease c env s meta srcBytes release_fence
  if r.ret != 0 then r
  else if env.releaseNotifyErr != 0 then ⟨-(env.releaseNotifyErr : Int), r.shared⟩
  else ⟨0, r.shared⟩

/-- `ConsumerBuffer::ReleaseAsync()`: zero metadata, invalid fence. -/
def ReleaseAsyncNoMeta (c : ConsumerBuffer) (env : Env) (s : SharedState) :
    ReleaseResult :=
  ReleaseAsync c env s defaultMeta [] invalidHandle

/-- `ConsumerBuffer::Discard()`: `Release(LocalHandle())`. -/
def Discard (c : ConsumerBuffer) (env : Env) (s : SharedState) : ReleaseResult :=
  Release c env s invalidHandle

/-- Concrete consumer: bit 2 (mask 4), capacity 8, local blob address 1000. -/
def cEx : ConsumerBuffer := ⟨4, 8, 1000, ⟨7⟩⟩

/-- Concrete consumer on the same buffer holding bit 1 (mask 2). -/
def cExOther : ConsumerBuffer := ⟨2, 8, 1000, ⟨7⟩⟩

/-- Environment in which every external call succeeds. -/
def envOk : Env := ⟨true, true, 0, 0⟩

/-- Shared memory with the producer bit clear: nothing posted. -/
def sIdleEx : SharedState := ⟨0, 0, ⟨3, 555, [9, 9]⟩, [1, 2, 3, 4], ⟨-1⟩⟩

/-- Shared memory just posted by the producer: StateWord = producer bit only,
an acquire fence pending. -/
def sPostedEx : SharedState := ⟨1, 1, ⟨3, 555, [9, 9]⟩, [1, 2, 3, 4], ⟨-1⟩⟩

/-- Shared memory posted to consumer bit 4 and already acquired by consumer
bit 2: StateWord = 3, an acquire fence pending. -/
def sC6 : SharedState := ⟨3, 1, ⟨3, 555, [9, 9]⟩, [1, 2, 3, 4], ⟨-1⟩⟩

/-- Environment in which fence duplication and fence publication both fail
while authority notifications succeed. -/
def envFenceFail : Env := ⟨false, false, 0, 0⟩

theorem and_mask64_self (n : Nat) (h : n < 2 ^ 64) : n &&& mask64 = n := by
  show n &&& mask64 = n
  rw [mask64, Nat.and_pow_two_sub_one_eq_mod, Nat.mod_eq_of_lt h]

theorem modifyBufferState_zero_clear (st b : Nat) :
    ModifyBufferState st 0 b = (st &&& mask64) ||| (b &&& mask64) := by
  simp [ModifyBufferState, Nat.zero_and, Nat.xor_zero]

theorem checkMetadata_ok (c : ConsumerBuffer) (size : Nat)
    (h : size ≤ c.userMetadataCapacity) : CheckMetadata c size = 0 := by
  simp [CheckMetadata, Nat.not_lt.mpr h]

theorem checkMetadata_over (c : ConsumerBuffer) (size : Nat)
    (h : c.userMetadataCapacity < size) : CheckMetadata c size = -EINVAL := by
  simp [CheckMetadata, h]

theorem localAcquire_not_posted (c : ConsumerBuffer) (env : Env) (s : SharedState)
    (oF : Bool) (h : IsBufferPosted s.bufferState c.stateBit = false) :
    LocalAcquire c env s true oF = ⟨-EBUSY, s, none, none⟩ := by
  simp [LocalAcquire, h]

theorem localAcquire_posted (c : ConsumerBuffer) (env : Env) (s : SharedState)
    (oF : Bool) (h : IsBufferPosted s.bufferState c.stateBit = true) :
    LocalAcquire c env s true oF =
      ⟨0, { s with bufferState := ModifyBufferState s.bufferState 0 c.stateBit },
       some (if s.metadata.user_metadata_size != 0 then
               { s.metadata with user_metadata_ptr := c.userMetadataPtr }
             else { s.metadata with user_metadata_ptr := 0 }),
       if s.fenceState &&& kProducerStateBit != 0 then
         some (c.sharedAcquireFence.Duplicate env.dupOk)
       else none⟩ := by
  simp [LocalAcquire, h]

theorem localRelease_over (c : ConsumerBuffer) (env : Env) (s : SharedState)
    (meta : DvrNativeBufferMetadata) (src : List Nat) (f : LocalHandle)
    (h : c.userMetadataCapacity < meta.user_metadata_size) :
    LocalRelease c env s meta src f = ⟨-EINVAL, s⟩ := by
  simp [LocalRelease, checkMetadata_over c _ h, EINVAL]

theorem localRelease_not_acquired (c : ConsumerBuffer) (env : Env) (s : SharedState)
    (meta : DvrNativeBufferMetadata) (src : List Nat) (f : LocalHandle)
    (hsz : meta.user_metadata_size ≤ c.userMetadataCapacity)
    (h : IsBufferAcquired s.bufferState = false) :
    LocalRelease c env s meta src f = ⟨-EBUSY, s⟩ := by
  simp [LocalRelease, checkMetadata_ok c _ hsz, h]

theorem localRelease_ret_zero (c : ConsumerBuffer) (env : Env) (s : SharedState)
    (meta : DvrNativeBufferMetadata) (src : List Nat) (f : LocalHandle)
    (hsz : meta.user_metadata_size ≤ c.userMetadataCapacity)
    (hacq : IsBufferAcquired s.bufferState = true)
    (hpub : env.publishOk = true) :
    (LocalRelease c env s meta src f).ret = 0 := by
  simp [LocalRelease, checkMetadata_ok c _ hsz, hacq, UpdateSharedFence, hpub]

theorem localRelease_slot (c : ConsumerBuffer) (env : Env) (s : SharedState)
    (meta : DvrNativeBufferMetadata) (src : List Nat) (f : LocalHandle)
    (hsz : meta.user_metadata_size ≤ c.userMetadataCapacity)
    (hacq : IsBufferAcquired s.bufferState = true)
    (hpub : env.publishOk = true) :
    (LocalRelease c env s meta src f).shared.releaseFenceSlot = f := by
  simp [LocalRelease, checkMetadata_ok c _ hsz, hacq, UpdateSharedFence, hpub]

theorem localRelease_bufferState (c : ConsumerBuffer) (env : Env) (s : SharedState)
    (meta : DvrNativeBufferMetadata) (src : List Nat) (f : LocalHandle) :
    (LocalRelease c env s meta src f).shared.bufferState = s.bufferState := by
  simp only [LocalRelease, UpdateSharedFence]
  split
  · rfl
  · split
    · rfl
    · split <;> split <;> split <;> simp_all

theorem localRelease_publish_fail (c : ConsumerBuffer) (env : Env) (s : SharedState)
    (meta : DvrNativeBufferMetadata) (src : List Nat) (f : LocalHandle)
    (hsz : meta.user_metadata_size ≤ c.userMetadataCapacity)
    (hacq : IsBufferAcquired s.bufferState = true)
    (hpub : env.publishOk = false) :
    (LocalRelease c env s meta src f).ret = -EIOerr := by
  simp [LocalRelease, checkMetadata_ok c _ hsz, hacq, UpdateSharedFence, hpub, EIOerr]

theorem and_two_pow_eq_zero_iff (n j : Nat) :
    n &&& 2 ^ j = 0 ↔ n.testBit j = false := by
  constructor
  · intro h
    have := congrArg (Nat.testBit · j) h
    simpa [Nat.testBit_and, Nat.testBit_two_pow] using this
  · intro h
    apply Nat.eq_of_testBit_eq
    intro k
    simp only [Nat.testBit_and, Nat.testBit_two_pow, Nat.zero_testBit]
    by_cases hk : j = k
    · subst hk; simp [h]
    · simp [hk]

theorem and_one_ne_zero_iff (n : Nat) :
    (n &&& 1 ≠ 0) ↔ n.testBit 0 = true := by
  have h := and_two_pow_eq_zero_iff n 0
  simp only [pow_zero] at h
  constructor
  · intro hne
    by_contra hb
    exact hne (h.mpr (by simpa using hb))
  · intro hb hz
    rw [h.mp hz] at hb
    exact Bool.false_ne_true hb

theorem or_and_distrib_right_nat (a b c : Nat) :
    (a ||| b) &&& c = (a &&& c) ||| (b &&& c) := by
  apply Nat.eq_of_testBit_eq
  intro k
  simp [Nat.testBit_or, Nat.testBit_and, Bool.and_or_distrib_right]

theorem and_mask64_and (a : Nat) : (a &&& mask64) &&& mask64 = a &&& mask64 := by
  rw [Nat.and_assoc]
  congr 1

theorem isBufferPosted_iff (st b : Nat) :
    IsBufferPosted st b = true ↔ (st &&& kProducerStateBit ≠ 0 ∧ st &&& b = 0) := by
  simp [IsBufferPosted]

theorem testBit_and_mask64 (n k : Nat) (hk : k < 64) :
    (n &&& mask64).testBit k = n.testBit k := by
  rw [mask64, Nat.and_pow_two_sub_one_eq_mod, Nat.testBit_mod_two_pow]
  simp [hk]

theorem two_pow_and_mask64 (i : Nat) (hi : i < 64) : 2 ^ i &&& mask64 = 2 ^ i := by
  exact and_mask64_self _ (Nat.pow_lt_pow_right Nat.one_lt_two hi)

theorem localAcquire_cases (c : ConsumerBuffer) (env : Env) (s : SharedState)
    (oM oF : Bool) :
    LocalAcquire c env s oM oF = ⟨-EINVAL, s, none, none⟩ ∨
    LocalAcquire c env s oM oF = ⟨-EBUSY, s, none, none⟩ ∨
    ((LocalAcquire c env s oM oF).ret = 0 ∧
     (LocalAcquire c env s oM oF).shared =
       { s with bufferState := ModifyBufferState s.bufferState 0 c.stateBit }) := by
  cases oM with
  | false => exact Or.inl (by simp [LocalAcquire])
  | true =>
    cases hp : IsBufferPosted s.bufferState c.stateBit with
    | false => exact Or.inr (Or.inl (localAcquire_not_posted c env s oF hp))
    | true =>
      refine Or.inr (Or.inr ?_)
      rw [localAcquire_posted c env s oF hp]
      exact ⟨rfl, rfl⟩

theorem acquire_shared_cases (c : ConsumerBuffer) (env : Env) (s : SharedState)
    (rf mNN : Bool) (size : Nat) :
    (Acquire c env s rf mNN size).shared = s ∨
    (Acquire c env s rf mNN size).shared = (LocalAcquire c env s true rf).shared := by
  simp only [Acquire]
  split
  · exact Or.inl rfl
  · split
    · exact Or.inr rfl
    · split
      · exact Or.inr rfl
      · exact Or.inr rfl

theorem acquireAsync_shared (c : ConsumerBuffer) (env : Env) (s : SharedState)
    (oM oF : Bool) :
    (AcquireAsync c env s oM oF).shared = (LocalAcquire c env s oM oF).shared := by
  simp only [AcquireAsync]
  split
  · rfl
  · split <;> rfl

/-- C1 counterexample: a call to `Acquire` whose StateWord snapshot is not
posted (producer bit clear) but whose requested user-metadata size (9) exceeds
the capacity (8) returns `-EINVAL` from the metadata capacity check, not the
state-conflict error `-EBUSY` the claim promises for every such call. -/
theorem C1_counterexample :
    IsBufferPosted sIdleEx.bufferState cEx.stateBit = false ∧
    (Acquire cEx envOk sIdleEx true true 9).ret = -EINVAL ∧
    (Acquire cEx envOk sIdleEx true true 9).ret ≠ -EBUSY := by decide

/-- C1 (amended): for every `Acquire` whose requested user-metadata size is
within capacity, and every `AcquireAsync` with a non-null `out_meta`, a
StateWord snapshot that is not `Posted(state, ownBit)` makes the operation
fail with the state-conflict error `-EBUSY` and leave shared memory
byte-for-byte unchanged. -/
theorem C1_not_posted_ebusy (c : ConsumerBuffer) (env : Env) (s : SharedState)
    (rf mNN oF : Bool) (size : Nat)
    (hsize : size ≤ c.userMetadataCapacity)
    (hpost : IsBufferPosted s.bufferState c.stateBit = false) :
    (Acquire c env s rf mNN size).ret = -EBUSY ∧
    (Acquire c env s rf mNN size).shared = s ∧
    (AcquireAsync c env s true oF).ret = -EBUSY ∧
    (AcquireAsync c env s true oF).shared = s := by
  have hl := localAcquire_not_posted c env s rf hpost
  have hl2 := localAcquire_not_posted c env s oF hpost
  refine ⟨?_, ?_, ?_, ?_⟩ <;>
    simp [Acquire, AcquireAsync, checkMetadata_ok c _ hsize, hl, hl2, EBUSY]

/-- C1 witness: the amended theorem applied at a concrete idle buffer. -/
theorem C1_witness :
    (Acquire cEx envOk sIdleEx true true 3).ret = -EBUSY ∧
    (Acquire cEx envOk sIdleEx true true 3).shared = sIdleEx ∧
    (AcquireAsync cEx envOk sIdleEx true true).ret = -EBUSY ∧
    (AcquireAsync cEx envOk sIdleEx true true).shared = sIdleEx :=
  C1_not_posted_ebusy cEx envOk sIdleEx true true true 3 (by decide) (by decide)

/-- C2 counterexample: consumer `cEx` (bit mask 4) never acquired the buffer —
its bit is clear in the StateWord reached after the other consumer (bit
mask 2) acquired a posted buffer — yet its `Release` succeeds (returns 0) and
writes the release fence into shared memory, instead of failing with
`-EBUSY` and performing zero shared-memory writes. -/
theorem C2_counterexample :
    (LocalAcquire cExOther envOk sPostedEx true true).ret = 0 ∧
    ((LocalAcquire cExOther envOk sPostedEx true true).shared.bufferState &&&
        cEx.stateBit = 0) ∧
    (Release cEx envOk (LocalAcquire cExOther envOk sPostedEx true true).shared
        ⟨9⟩).ret = 0 ∧
    (Release cEx envOk (LocalAcquire cExOther envOk sPostedEx true true).shared
        ⟨9⟩).shared ≠ (LocalAcquire cExOther envOk sPostedEx true true).shared := by
  decide

/-- C2 (amended): the `Release`-family precondition is the aggregate
`Acquired(state)` predicate — producer bit set and some consumer bit set — not
a check of the calling consumer own bit.  Whenever that aggregate predicate
fails (and, for the metadata-carrying variant, the requested size is within
capacity), `Release`, `ReleaseAsync` and `Discard` fail with `-EBUSY` and
perform zero shared-memory writes; but a consumer that never acquired can
successfully release once any other consumer has acquired. -/
theorem C2_not_acquired_ebusy (c : ConsumerBuffer) (env : Env) (s : SharedState)
    (meta : DvrNativeBufferMetadata) (src : List Nat) (f : LocalHandle)
    (hsz : meta.user_metadata_size ≤ c.userMetadataCapacity)
    (hacq : IsBufferAcquired s.bufferState = false) :
    (Release c env s f).ret = -EBUSY ∧ (Release c env s f).shared = s ∧
    (ReleaseAsync c env s meta src f).ret = -EBUSY ∧
    (ReleaseAsync c env s meta src f).shared = s ∧
    (Discard c env s).ret = -EBUSY ∧ (Discard c env s).shared = s := by
  have h0 : defaultMeta.user_metadata_size ≤ c.userMetadataCapacity := Nat.zero_le _
  have hl := localRelease_not_acquired c env s defaultMeta [] f h0 hacq
  have hl2 := localRelease_not_acquired c env s meta src f hsz hacq
  have hl3 := localRelease_not_acquired c env s defaultMeta [] invalidHandle h0 hacq
  refine ⟨?_, ?_, ?_, ?_, ?_, ?_⟩ <;>
    simp [Release, ReleaseAsync, Discard, hl, hl2, hl3, EBUSY]

/-- C2 witness: the amended theorem applied at a concrete idle buffer. -/
theorem C2_witness :
    (Release cEx envOk sIdleEx ⟨9⟩).ret = -EBUSY ∧
    (Release cEx envOk sIdleEx ⟨9⟩).shared = sIdleEx ∧
    (ReleaseAsync cEx envOk sIdleEx ⟨2, 700, []⟩ [5] ⟨9⟩).ret = -EBUSY ∧
    (ReleaseAsync cEx envOk sIdleEx ⟨2, 700, []⟩ [5] ⟨9⟩).shared = sIdleEx ∧
    (Discard cEx envOk sIdleEx).ret = -EBUSY ∧
    (Discard cEx envOk sIdleEx).shared = sIdleEx :=
  C2_not_acquired_ebusy cEx envOk sIdleEx ⟨2, 700, []⟩ [5] ⟨9⟩ (by decide) (by decide)

/-- C3: no consumer operation ever clears a StateWord bit.  On success
`LocalAcquire` performs exactly `ModifyBufferState` with clear mask 0 and set
mask equal to the consumer own bit, so every StateWord bit set beforehand is
still set after any `LocalAcquire`, `Acquire` or `AcquireAsync` (successful or
not); on failure `LocalAcquire` leaves shared memory unchanged; and none of
`LocalRelease`, `Release`, `ReleaseAsync`, `ReleaseAsyncNoMeta`, `Discard`
changes the StateWord at all, so the consumer own bit is still set after a
successful `Release`. -/
theorem C3_never_clears_bits (c : ConsumerBuffer) (env : Env) (s : SharedState)
    (oM oF rf mNN : Bool) (size : Nat) (meta : DvrNativeBufferMetadata)
    (src : List Nat) (f : LocalHandle) (hw : s.bufferState < 2 ^ 64) :
    ((LocalAcquire c env s oM oF).ret = 0 →
      (LocalAcquire c env s oM oF).shared.bufferState =
        ModifyBufferState s.bufferState 0 c.stateBit) ∧
    ((LocalAcquire c env s oM oF).ret ≠ 0 →
      (LocalAcquire c env s oM oF).shared = s) ∧
    (∀ i, s.bufferState.testBit i = true →
      (LocalAcquire c env s oM oF).shared.bufferState.testBit i = true) ∧
    (∀ i, s.bufferState.testBit i = true →
      (Acquire c env s rf mNN size).shared.bufferState.testBit i = true) ∧
    (∀ i, s.bufferState.testBit i = true →
      (AcquireAsync c env s oM oF).shared.bufferState.testBit i = true) ∧
    (LocalRelease c env s meta src f).shared.bufferState = s.bufferState ∧
    (Release c env s f).shared.bufferState = s.bufferState ∧
    (ReleaseAsync c env s meta src f).shared.bufferState = s.bufferState ∧
    (ReleaseAsyncNoMeta c env s).shared.bufferState = s.bufferState ∧
    (Discard c env s).shared.bufferState = s.bufferState ∧
    ((Release c env s f).ret = 0 → s.bufferState &&& c.stateBit ≠ 0 →
      (Release c env s f).shared.bufferState &&& c.stateBit ≠ 0) := by
  have hmono : ∀ i, s.bufferState.testBit i = true →
      (ModifyBufferState s.bufferState 0 c.stateBit).testBit i = true := by
    intro i hi
    rw [modifyBufferState_zero_clear, and_mask64_self _ hw]
    simp [Nat.testBit_or, hi]
  have hlamono : ∀ oM2 oF2 : Bool, ∀ i, s.bufferState.testBit i = true →
      (LocalAcquire c env s oM2 oF2).shared.bufferState.testBit i = true := by
    intro oM2 oF2 i hi
    rcases localAcquire_cases c env s oM2 oF2 with h | h | h
    · rw [h]; exact hi
    · rw [h]; exact hi
    · rw [h.2]; exact hmono i hi
  have hrel : ∀ g : LocalHandle,
      (Release c env s g).shared.bufferState = s.bufferState := by
    intro g
    have hb := localRelease_bufferState c env s defaultMeta [] g
    simp only [Release]
    split
    · exact hb
    · split <;> exact hb
  have hrelA : (ReleaseAsync c env s meta src f).shared.bufferState =
      s.bufferState := by
    have hb := localRelease_bufferState c env s meta src f
    simp only [ReleaseAsync]
    split
    · exact hb
    · split <;> exact hb
  have hrelA0 : (ReleaseAsyncNoMeta c env s).shared.bufferState =
      s.bufferState := by
    have hb := localRelease_bufferState c env s defaultMeta [] invalidHandle
    simp only [ReleaseAsyncNoMeta, ReleaseAsync]
    split
    · exact hb
    · split <;> exact hb
  have hfull : ∀ i, s.bufferState.testBit i = true →
      (Acquire c env s rf mNN size).shared.bufferState.testBit i = true := by
    intro i hi
    rcases acquire_shared_cases c env s rf mNN size with h | h
    · rw [h]; exact hi
    · rw [h]; exact hlamono true rf i hi
  have hasync : ∀ i, s.bufferState.testBit i = true →
      (AcquireAsync c env s oM oF).shared.bufferState.testBit i = true := by
    intro i hi
    rw [acquireAsync_shared]
    exact hlamono oM oF i hi
  rcases localAcquire_cases c env s oM oF with h | h | h
  · refine ⟨?_, ?_, hlamono oM oF, hfull, hasync,
      localRelease_bufferState c env s meta src f, hrel f, hrelA, hrelA0,
      hrel invalidHandle, ?_⟩
    · rw [h]; intro hr; exact absurd hr (by simp [EINVAL])
    · intro _; rw [h]
    · intro _ hbit; rw [hrel f]; exact hbit
  · refine ⟨?_, ?_, hlamono oM oF, hfull, hasync,
      localRelease_bufferState c env s meta src f, hrel f, hrelA, hrelA0,
      hrel invalidHandle, ?_⟩
    · rw [h]; intro hr; exact absurd hr (by simp [EBUSY])
    · intro _; rw [h]
    · intro _ hbit; rw [hrel f]; exact hbit
  · refine ⟨?_, ?_, hlamono oM oF, hfull, hasync,
      localRelease_bufferState c env s meta src f, hrel f, hrelA, hrelA0,
      hrel invalidHandle, ?_⟩
    · intro _; rw [h.2]
    · intro hr; exact absurd h.1 hr
    · intro _ hbit; rw [hrel f]; exact hbit

/-- C3 witness: the theorem applied at a concrete posted buffer. -/
theorem C3_witness :
    ((LocalAcquire cEx envOk sPostedEx true true).ret = 0 →
      (LocalAcquire cEx envOk sPostedEx true true).shared.bufferState =
        ModifyBufferState sPostedEx.bufferState 0 cEx.stateBit) ∧
    ((LocalAcquire cEx envOk sPostedEx true true).ret ≠ 0 →
      (LocalAcquire cEx envOk sPostedEx true true).shared = sPostedEx) ∧
    (∀ i, sPostedEx.bufferState.testBit i = true →
      (LocalAcquire cEx envOk sPostedEx true true).shared.bufferState.testBit i
        = true) ∧
    (∀ i, sPostedEx.bufferState.testBit i = true →
      (Acquire cEx envOk sPostedEx true true 3).shared.bufferState.testBit i
        = true) ∧
    (∀ i, sPostedEx.bufferState.testBit i = true →
      (AcquireAsync cEx envOk sPostedEx true true).shared.bufferState.testBit i
        = true) ∧
    (LocalRelease cEx envOk sPostedEx ⟨2, 700, []⟩ [5] ⟨9⟩).shared.bufferState =
      sPostedEx.bufferState ∧
    (Release cEx envOk sPostedEx ⟨9⟩).shared.bufferState =
      sPostedEx.bufferState ∧
    (ReleaseAsync cEx envOk sPostedEx ⟨2, 700, []⟩ [5] ⟨9⟩).shared.bufferState =
      sPostedEx.bufferState ∧
    (ReleaseAsyncNoMeta cEx envOk sPostedEx).shared.bufferState =
      sPostedEx.bufferState ∧
    (Discard cEx envOk sPostedEx).shared.bufferState = sPostedEx.bufferState ∧
    ((Release cEx envOk sPostedEx ⟨9⟩).ret = 0 →
      sPostedEx.bufferState &&& cEx.stateBit ≠ 0 →
      (Release cEx envOk sPostedEx ⟨9⟩).shared.bufferState &&& cEx.stateBit ≠ 0) :=
  C3_never_clears_bits cEx envOk sPostedEx true true true true 3
    ⟨2, 700, []⟩ [5] ⟨9⟩ (by decide)

/-- C4: an oversized user-metadata size (requested size strictly greater
than the fixed capacity) makes `Acquire`, `LocalRelease` and `ReleaseAsync`
fail with the invalid-argument error `-EINVAL` and leave shared memory
byte-for-byte unchanged — no partial metadata write, no fence publication, no
StateWord change. -/
theorem C4_oversized_einval (c : ConsumerBuffer) (env : Env) (s : SharedState)
    (rf mNN : Bool) (size : Nat) (meta : DvrNativeBufferMetadata)
    (src : List Nat) (f : LocalHandle)
    (hA : c.userMetadataCapacity < size)
    (hR : c.userMetadataCapacity < meta.user_metadata_size) :
    (Acquire c env s rf mNN size).ret = -EINVAL ∧
    (Acquire c env s rf mNN size).shared = s ∧
    (LocalRelease c env s meta src f).ret = -EINVAL ∧
    (LocalRelease c env s meta src f).shared = s ∧
    (ReleaseAsync c env s meta src f).ret = -EINVAL ∧
    (ReleaseAsync c env s meta src f).shared = s := by
  have hl := localRelease_over c env s meta src f hR
  refine ⟨?_, ?_, ?_, ?_, ?_, ?_⟩ <;>
    simp [Acquire, ReleaseAsync, hl, checkMetadata_over c _ hA, EINVAL]

/-- C4 witness: the theorem applied at a concrete posted buffer with capacity
8 and requested size 9. -/
theorem C4_witness :
    (Acquire cEx envOk sPostedEx true true 9).ret = -EINVAL ∧
    (Acquire cEx envOk sPostedEx true true 9).shared = sPostedEx ∧
    (LocalRelease cEx envOk sPostedEx ⟨9, 700, []⟩ [5] ⟨9⟩).ret = -EINVAL ∧
    (LocalRelease cEx envOk sPostedEx ⟨9, 700, []⟩ [5] ⟨9⟩).shared = sPostedEx ∧
    (ReleaseAsync cEx envOk sPostedEx ⟨9, 700, []⟩ [5] ⟨9⟩).ret = -EINVAL ∧
    (ReleaseAsync cEx envOk sPostedEx ⟨9, 700, []⟩ [5] ⟨9⟩).shared = sPostedEx :=
  C4_oversized_einval cEx envOk sPostedEx true true 9 ⟨9, 700, []⟩ [5] ⟨9⟩
    (by decide) (by decide)

/-- C5 counterexample: with the producer fence pending and fence duplication
failing, `AcquireAsync` still returns success (0) and silently stores the
invalid handle through `out_fence` — the duplication failure is not surfaced
as an I/O error, contradicting the claim that no such failure is ever
dropped. -/
theorem C5_counterexample :
    sPostedEx.fenceState &&& kProducerStateBit ≠ 0 ∧
    (AcquireAsync cEx envFenceFail sPostedEx true true).ret = 0 ∧
    (AcquireAsync cEx envFenceFail sPostedEx true true).outFenceWrite =
      some invalidHandle ∧
    invalidHandle.IsValid = false := by decide

/-- C5 (amended): a release-fence publication failure is surfaced — 
`LocalRelease`, `Release` and `ReleaseAsync` return the I/O error `-EIOerr` —
but an acquire-fence duplication failure is not: `LocalAcquire` stores the
(invalid) duplicate through `out_fence` and still returns success. -/
theorem C5_publication_surfaced_duplication_dropped (c : ConsumerBuffer)
    (env : Env) (s : SharedState) (meta : DvrNativeBufferMetadata)
    (src : List Nat) (f : LocalHandle) (oF : Bool)
    (hpub : env.publishOk = false)
    (hsz : meta.user_metadata_size ≤ c.userMetadataCapacity)
    (hacq : IsBufferAcquired s.bufferState = true)
    (hdup : env.dupOk = false)
    (hpost : IsBufferPosted s.bufferState c.stateBit = true)
    (hfence : s.fenceState &&& kProducerStateBit ≠ 0) :
    (LocalRelease c env s meta src f).ret = -EIOerr ∧
    (Release c env s f).ret = -EIOerr ∧
    (ReleaseAsync c env s meta src f).ret = -EIOerr ∧
    (LocalAcquire c env s true oF).ret = 0 ∧
    (LocalAcquire c env s true oF).outFenceWrite = some invalidHandle := by
  have h0 : defaultMeta.user_metadata_size ≤ c.userMetadataCapacity :=
    Nat.zero_le _
  have hr0 := localRelease_publish_fail c env s defaultMeta [] f h0 hacq hpub
  have hr1 := localRelease_publish_fail c env s meta src f hsz hacq hpub
  have hla := localAcquire_posted c env s oF hpost
  have hf : (s.fenceState &&& kProducerStateBit != 0) = true := by
    simpa using hfence
  refine ⟨hr1, ?_, ?_, by rw [hla], ?_⟩
  · simp [Release, hr0, EIOerr]
  · simp [ReleaseAsync, hr1, EIOerr]
  · rw [hla]
    simp [hf, LocalHandle.Duplicate, hdup, invalidHandle]

/-- C5 witness: the amended theorem applied at the posted-and-acquired buffer
`sC6` with both fence externals failing. -/
theorem C5_witness :
    (LocalRelease cEx envFenceFail sC6 ⟨2, 700, []⟩ [5] ⟨9⟩).ret = -EIOerr ∧
    (Release cEx envFenceFail sC6 ⟨9⟩).ret = -EIOerr ∧
    (ReleaseAsync cEx envFenceFail sC6 ⟨2, 700, []⟩ [5] ⟨9⟩).ret = -EIOerr ∧
    (LocalAcquire cEx envFenceFail sC6 true true).ret = 0 ∧
    (LocalAcquire cEx envFenceFail sC6 true true).outFenceWrite =
      some invalidHandle :=
  C5_publication_surfaced_duplication_dropped cEx envFenceFail sC6
    ⟨2, 700, []⟩ [5] ⟨9⟩ true (by decide) (by decide) (by decide) (by decide)
    (by decide) (by decide)

/-- C6: when every local step succeeds but the authority notification fails
(blocking `ConsumerAcquire`/`ConsumerRelease` call or one-way impulse), the
error is returned to the caller while every already-applied local effect — the
StateWord bit set by the acquire, the published release fence — stays in
place: the shared memory returned by `Acquire`/`AcquireAsync` is exactly the
post-`LocalAcquire` memory and the one returned by `Release`/`ReleaseAsync`
is exactly the post-`LocalRelease` memory. -/
theorem C6_notify_failure_no_rollback (c : ConsumerBuffer) (env : Env)
    (s : SharedState) (rf mNN oF : Bool) (size : Nat)
    (meta : DvrNativeBufferMetadata) (src : List Nat) (f : LocalHandle)
    (hsizeA : size ≤ c.userMetadataCapacity)
    (hpost : IsBufferPosted s.bufferState c.stateBit = true)
    (hsizeR : meta.user_metadata_size ≤ c.userMetadataCapacity)
    (hacq : IsBufferAcquired s.bufferState = true)
    (hpub : env.publishOk = true)
    (hae : env.acquireNotifyErr ≠ 0)
    (hre : env.releaseNotifyErr ≠ 0) :
    (Acquire c env s rf mNN size).ret = -(env.acquireNotifyErr : Int) ∧
    (Acquire c env s rf mNN size).shared = (LocalAcquire c env s true rf).shared ∧
    (AcquireAsync c env s true oF).ret = -(env.acquireNotifyErr : Int) ∧
    (AcquireAsync c env s true oF).shared = (LocalAcquire c env s true oF).shared ∧
    (LocalAcquire c env s true rf).shared.bufferState =
      ModifyBufferState s.bufferState 0 c.stateBit ∧
    (Release c env s f).ret = -(env.releaseNotifyErr : Int) ∧
    (Release c env s f).shared = (LocalRelease c env s defaultMeta [] f).shared ∧
    (ReleaseAsync c env s meta src f).ret = -(env.releaseNotifyErr : Int) ∧
    (ReleaseAsync c env s meta src f).shared =
      (LocalRelease c env s meta src f).shared ∧
    (LocalRelease c env s defaultMeta [] f).shared.releaseFenceSlot = f ∧
    (LocalRelease c env s meta src f).shared.releaseFenceSlot = f := by
  have hla := localAcquire_posted c env s rf hpost
  have hla2 := localAcquire_posted c env s oF hpost
  have h0 : defaultMeta.user_metadata_size ≤ c.userMetadataCapacity :=
    Nat.zero_le _
  have hlr0 := localRelease_ret_zero c env s defaultMeta [] f h0 hacq hpub
  have hlr1 := localRelease_ret_zero c env s meta src f hsizeR hacq hpub
  refine ⟨?_, ?_, ?_, ?_, ?_, ?_, ?_, ?_, ?_,
    localRelease_slot c env s defaultMeta [] f h0 hacq hpub,
    localRelease_slot c env s meta src f hsizeR hacq hpub⟩
  · simp [Acquire, checkMetadata_ok c _ hsizeA, hla, hae]
  · simp [Acquire, checkMetadata_ok c _ hsizeA, hla, hae]
  · simp [AcquireAsync, hla2, hae]
  · simp [AcquireAsync, hla2, hae]
  · rw [hla]
  · simp [Release, hlr0, hre]
  · simp [Release, hlr0, hre]
  · simp [ReleaseAsync, hlr1, hre]
  · simp [ReleaseAsync, hlr1, hre]

/-- C6 witness: the theorem applied at a buffer posted to consumer `cEx`
(bit 4) and acquired by the other consumer (bit 2), with the authority
failing both notifications with error 13. -/
theorem C6_witness :
    (Acquire cEx ⟨true, true, 13, 13⟩ sC6 true true 3).ret = -((13 : Nat) : Int) ∧
    (Acquire cEx ⟨true, true, 13, 13⟩ sC6 true true 3).shared =
      (LocalAcquire cEx ⟨true, true, 13, 13⟩ sC6 true true).shared ∧
    (AcquireAsync cEx ⟨true, true, 13, 13⟩ sC6 true true).ret = -((13 : Nat) : Int) ∧
    (AcquireAsync cEx ⟨true, true, 13, 13⟩ sC6 true true).shared =
      (LocalAcquire cEx ⟨true, true, 13, 13⟩ sC6 true true).shared ∧
    (LocalAcquire cEx ⟨true, true, 13, 13⟩ sC6 true true).shared.bufferState =
      ModifyBufferState sC6.bufferState 0 cEx.stateBit ∧
    (Release cEx ⟨true, true, 13, 13⟩ sC6 ⟨9⟩).ret = -((13 : Nat) : Int) ∧
    (Release cEx ⟨true, true, 13, 13⟩ sC6 ⟨9⟩).shared =
      (LocalRelease cEx ⟨true, true, 13, 13⟩ sC6 defaultMeta [] ⟨9⟩).shared ∧
    (ReleaseAsync cEx ⟨true, true, 13, 13⟩ sC6 ⟨2, 700, []⟩ [5] ⟨9⟩).ret =
      -((13 : Nat) : Int) ∧
    (ReleaseAsync cEx ⟨true, true, 13, 13⟩ sC6 ⟨2, 700, []⟩ [5] ⟨9⟩).shared =
      (LocalRelease cEx ⟨true, true, 13, 13⟩ sC6 ⟨2, 700, []⟩ [5] ⟨9⟩).shared ∧
    (LocalRelease cEx ⟨true, true, 13, 13⟩ sC6 defaultMeta [] ⟨9⟩).shared.releaseFenceSlot
      = ⟨9⟩ ∧
    (LocalRelease cEx ⟨true, true, 13, 13⟩ sC6 ⟨2, 700, []⟩ [5] ⟨9⟩).shared.releaseFenceSlot
      = ⟨9⟩ :=
  C6_notify_failure_no_rollback cEx ⟨true, true, 13, 13⟩ sC6 true true true 3
    ⟨2, 700, []⟩ [5] ⟨9⟩ (by decide) (by decide) (by decide) (by decide)
    (by decide) (by decide) (by decide)

/-- C7: on every successful acquire the user-metadata reference field handed
back to the caller is rewritten, never taken verbatim from the shared region:
it equals the local-process mapping address when the canonical user-metadata
size is nonzero and 0 when that size is zero — independently of whatever
address value sits in the shared canonical metadata. -/
theorem C7_ptr_relocalized (c : ConsumerBuffer) (env : Env) (s : SharedState)
    (oF : Bool) (hpost : IsBufferPosted s.bufferState c.stateBit = true) :
    (LocalAcquire c env s true oF).ret = 0 ∧
    ((LocalAcquire c env s true oF).outMeta.map
        DvrNativeBufferMetadata.user_metadata_ptr) =
      some (if s.metadata.user_metadata_size ≠ 0 then c.userMetadataPtr else 0) ∧
    ((AcquireAsync c env s true oF).outMeta.map
        DvrNativeBufferMetadata.user_metadata_ptr) =
      some (if s.metadata.user_metadata_size ≠ 0 then c.userMetadataPtr else 0) := by
  have hla := localAcquire_posted c env s oF hpost
  have hmeta : ((LocalAcquire c env s true oF).outMeta.map
      DvrNativeBufferMetadata.user_metadata_ptr) =
      some (if s.metadata.user_metadata_size ≠ 0 then c.userMetadataPtr else 0) := by
    rw [hla]
    by_cases hsz : s.metadata.user_metadata_size = 0 <;> simp [hsz]
  have hasync : (AcquireAsync c env s true oF).outMeta =
      (LocalAcquire c env s true oF).outMeta := by
    simp only [AcquireAsync]
    split
    · rfl
    · split <;> rfl
  refine ⟨by rw [hla], hmeta, ?_⟩
  rw [hasync]
  exact hmeta

/-- C7 witness: the theorem applied at a posted buffer whose shared canonical
metadata carries the foreign address 555 and user-metadata size 3; the caller
sees the local address 1000 instead. -/
theorem C7_witness :
    (LocalAcquire cEx envOk sPostedEx true true).ret = 0 ∧
    ((LocalAcquire cEx envOk sPostedEx true true).outMeta.map
        DvrNativeBufferMetadata.user_metadata_ptr) =
      some (if sPostedEx.metadata.user_metadata_size ≠ 0 then
              cEx.userMetadataPtr else 0) ∧
    ((AcquireAsync cEx envOk sPostedEx true true).outMeta.map
        DvrNativeBufferMetadata.user_metadata_ptr) =
      some (if sPostedEx.metadata.user_metadata_size ≠ 0 then
              cEx.userMetadataPtr else 0) :=
  C7_ptr_relocalized cEx envOk sPostedEx true (by decide)

/-- C8: two consumers with distinct bit indices `i ≠ j` on one buffer, both
seeing the same posted StateWord: a successful `LocalAcquire` by either one
never changes the other consumer bit, both orders of the two acquires
succeed, and the two orders end in identical shared memory (the StateWord
OR-accumulates the two independent bits commutatively). -/
theorem C8_acquires_commute (env1 env2 : Env) (s : SharedState)
    (c1 c2 : ConsumerBuffer) (i j : Nat) (oF1 oF2 : Bool)
    (hb1 : c1.stateBit = 2 ^ i) (hb2 : c2.stateBit = 2 ^ j)
    (hij : i ≠ j) (hi : i < 64) (hj : j < 64)
    (hp1 : IsBufferPosted s.bufferState c1.stateBit = true)
    (hp2 : IsBufferPosted s.bufferState c2.stateBit = true) :
    (LocalAcquire c1 env1 s true oF1).ret = 0 ∧
    (LocalAcquire c2 env2 s true oF2).ret = 0 ∧
    (LocalAcquire c1 env1 s true oF1).shared.bufferState.testBit j =
      s.bufferState.testBit j ∧
    (LocalAcquire c2 env2 s true oF2).shared.bufferState.testBit i =
      s.bufferState.testBit i ∧
    (LocalAcquire c2 env2 (LocalAcquire c1 env1 s true oF1).shared true oF2).ret
      = 0 ∧
    (LocalAcquire c1 env1 (LocalAcquire c2 env2 s true oF2).shared true oF1).ret
      = 0 ∧
    (LocalAcquire c2 env2 (LocalAcquire c1 env1 s true oF1).shared true oF2).shared
      = (LocalAcquire c1 env1 (LocalAcquire c2 env2 s true oF2).shared true oF1).shared := by
  have h1 := (isBufferPosted_iff s.bufferState c1.stateBit).mp hp1
  have h2 := (isBufferPosted_iff s.bufferState c2.stateBit).mp hp2
  have hbit0 : s.bufferState.testBit 0 = true := by
    have h := h1.1
    exact (and_one_ne_zero_iff s.bufferState).mp h
  have hbi : s.bufferState.testBit i = false := by
    have h := h1.2
    rw [hb1] at h
    exact (and_two_pow_eq_zero_iff s.bufferState i).mp h
  have hbj : s.bufferState.testBit j = false := by
    have h := h2.2
    rw [hb2] at h
    exact (and_two_pow_eq_zero_iff s.bufferState j).mp h
  have hA1 : ModifyBufferState s.bufferState 0 c1.stateBit =
      (s.bufferState &&& mask64) ||| 2 ^ i := by
    rw [modifyBufferState_zero_clear, hb1, two_pow_and_mask64 i hi]
  have hA2 : ModifyBufferState s.bufferState 0 c2.stateBit =
      (s.bufferState &&& mask64) ||| 2 ^ j := by
    rw [modifyBufferState_zero_clear, hb2, two_pow_and_mask64 j hj]
  have hmt0 : (s.bufferState &&& mask64).testBit 0 = true := by
    rw [testBit_and_mask64 _ 0 (by omega)]; exact hbit0
  have hmti : (s.bufferState &&& mask64).testBit i = false := by
    rw [testBit_and_mask64 _ i hi]; exact hbi
  have hmtj : (s.bufferState &&& mask64).testBit j = false := by
    rw [testBit_and_mask64 _ j hj]; exact hbj
  have hp12 : IsBufferPosted ((s.bufferState &&& mask64) ||| 2 ^ i)
      c2.stateBit = true := by
    rw [isBufferPosted_iff, hb2]
    constructor
    · show ((s.bufferState &&& mask64) ||| 2 ^ i) &&& 1 ≠ 0
      rw [and_one_ne_zero_iff, Nat.testBit_or, hmt0]
      rfl
    · rw [and_two_pow_eq_zero_iff, Nat.testBit_or, hmtj, Nat.testBit_two_pow]
      simp [hij]
  have hp21 : IsBufferPosted ((s.bufferState &&& mask64) ||| 2 ^ j)
      c1.stateBit = true := by
    rw [isBufferPosted_iff, hb1]
    constructor
    · show ((s.bufferState &&& mask64) ||| 2 ^ j) &&& 1 ≠ 0
      rw [and_one_ne_zero_iff, Nat.testBit_or, hmt0]
      rfl
    · rw [and_two_pow_eq_zero_iff, Nat.testBit_or, hmti, Nat.testBit_two_pow]
      simp [Ne.symm hij]
  have hAnd1 : ((s.bufferState &&& mask64) ||| 2 ^ i) &&& mask64 =
      (s.bufferState &&& mask64) ||| 2 ^ i := by
    rw [or_and_distrib_right_nat, and_mask64_and, two_pow_and_mask64 i hi]
  have hAnd2 : ((s.bufferState &&& mask64) ||| 2 ^ j) &&& mask64 =
      (s.bufferState &&& mask64) ||| 2 ^ j := by
    rw [or_and_distrib_right_nat, and_mask64_and, two_pow_and_mask64 j hj]
  have hB12 : ModifyBufferState ((s.bufferState &&& mask64) ||| 2 ^ i) 0
      c2.stateBit = ((s.bufferState &&& mask64) ||| 2 ^ i) ||| 2 ^ j := by
    rw [modifyBufferState_zero_clear, hb2, two_pow_and_mask64 j hj, hAnd1]
  have hB21 : ModifyBufferState ((s.bufferState &&& mask64) ||| 2 ^ j) 0
      c1.stateBit = ((s.bufferState &&& mask64) ||| 2 ^ j) ||| 2 ^ i := by
    rw [modifyBufferState_zero_clear, hb1, two_pow_and_mask64 i hi, hAnd2]
  have hOr : ((s.bufferState &&& mask64) ||| 2 ^ i) ||| 2 ^ j =
      ((s.bufferState &&& mask64) ||| 2 ^ j) ||| 2 ^ i := by
    rw [Nat.or_assoc, Nat.or_comm (2 ^ i), ← Nat.or_assoc]
  have hla1 := localAcquire_posted c1 env1 s oF1 hp1
  have hla2 := localAcquire_posted c2 env2 s oF2 hp2
  have hs1 : (LocalAcquire c1 env1 s true oF1).shared =
      { s with bufferState := (s.bufferState &&& mask64) ||| 2 ^ i } := by
    rw [hla1, ← hA1]
  have hs2 : (LocalAcquire c2 env2 s true oF2).shared =
      { s with bufferState := (s.bufferState &&& mask64) ||| 2 ^ j } := by
    rw [hla2, ← hA2]
  refine ⟨by rw [hla1], by rw [hla2], ?_, ?_, ?_, ?_, ?_⟩
  · rw [hs1]
    show ((s.bufferState &&& mask64) ||| 2 ^ i).testBit j = s.bufferState.testBit j
    rw [Nat.testBit_or, hmtj, hbj, Nat.testBit_two_pow]
    simp [hij]
  · rw [hs2]
    show ((s.bufferState &&& mask64) ||| 2 ^ j).testBit i = s.bufferState.testBit i
    rw [Nat.testBit_or, hmti, hbi, Nat.testBit_two_pow]
    simp [Ne.symm hij]
  · rw [hs1, localAcquire_posted c2 env2 _ oF2 hp12]
  · rw [hs2, localAcquire_posted c1 env1 _ oF1 hp21]
  · rw [hs1, hs2, localAcquire_posted c2 env2 _ oF2 hp12,
      localAcquire_posted c1 env1 _ oF1 hp21]
    show ({ { s with bufferState := (s.bufferState &&& mask64) ||| 2 ^ i } with
        bufferState :=
          ModifyBufferState ((s.bufferState &&& mask64) ||| 2 ^ i) 0 c2.stateBit } :
        SharedState) =
      { { s with bufferState := (s.bufferState &&& mask64) ||| 2 ^ j } with
        bufferState :=
          ModifyBufferState ((s.bufferState &&& mask64) ||| 2 ^ j) 0 c1.stateBit }
    rw [hB12, hB21, hOr]

/-- C8 witness: the theorem applied to consumers with bit indices 1 and 2 on
a freshly posted buffer. -/
theorem C8_witness :
    (LocalAcquire cExOther envOk sPostedEx true true).ret = 0 ∧
    (LocalAcquire cEx envOk sPostedEx true true).ret = 0 ∧
    (LocalAcquire cExOther envOk sPostedEx true true).shared.bufferState.testBit 2 =
      sPostedEx.bufferState.testBit 2 ∧
    (LocalAcquire cEx envOk sPostedEx true true).shared.bufferState.testBit 1 =
      sPostedEx.bufferState.testBit 1 ∧
    (LocalAcquire cEx envOk
      (LocalAcquire cExOther envOk sPostedEx true true).shared true true).ret = 0 ∧
    (LocalAcquire cExOther envOk
      (LocalAcquire cEx envOk sPostedEx true true).shared true true).ret = 0 ∧
    (LocalAcquire cEx envOk
      (LocalAcquire cExOther envOk sPostedEx true true).shared true true).shared =
    (LocalAcquire cExOther envOk
      (LocalAcquire cEx envOk sPostedEx true true).shared true true).shared :=
  C8_acquires_commute envOk envOk sPostedEx cExOther cEx 1 2 true true
    (by decide) (by decide) (by decide) (by decide) (by decide)
    (by decide) (by decide)

/-- C9: `LocalAcquire` null-checks only the metadata output pointer — a null
`out_meta` returns `-EINVAL` before any shared-memory effect or output write —
while the fence output pointer is never inspected: the result is literally
independent of the `out_fence` nullness flag, and whenever the fence-state
word has the producer bit set the duplicated fence is stored through
`out_fence` unconditionally, even with a null `out_fence`. -/
theorem C9_out_fence_not_null_checked (c : ConsumerBuffer) (env : Env)
    (s : SharedState) (oF : Bool)
    (hpost : IsBufferPosted s.bufferState c.stateBit = true)
    (hfence : s.fenceState &&& kProducerStateBit ≠ 0) :
    (LocalAcquire c env s false oF).ret = -EINVAL ∧
    (LocalAcquire c env s false oF).shared = s ∧
    (LocalAcquire c env s false oF).outMeta = none ∧
    (LocalAcquire c env s false oF).outFenceWrite = none ∧
    (∀ b1 b2 : Bool, LocalAcquire c env s true b1 = LocalAcquire c env s true b2) ∧
    (LocalAcquire c env s true false).ret = 0 ∧
    (LocalAcquire c env s true false).outFenceWrite =
      some (c.sharedAcquireFence.Duplicate env.dupOk) := by
  have hla := localAcquire_posted c env s false hpost
  have hf : (s.fenceState &&& kProducerStateBit != 0) = true := by
    simpa using hfence
  refine ⟨?_, ?_, ?_, ?_, ?_, ?_, ?_⟩
  · simp [LocalAcquire]
  · simp [LocalAcquire]
  · simp [LocalAcquire]
  · simp [LocalAcquire]
  · intro b1 b2; rfl
  · rw [hla]
  · rw [hla]; simp [hf]

/-- C9 witness: the theorem applied at a posted buffer with a pending
producer fence. -/
theorem C9_witness :
    (LocalAcquire cEx envOk sPostedEx false true).ret = -EINVAL ∧
    (LocalAcquire cEx envOk sPostedEx false true).shared = sPostedEx ∧
    (LocalAcquire cEx envOk sPostedEx false true).outMeta = none ∧
    (LocalAcquire cEx envOk sPostedEx false true).outFenceWrite = none ∧
    (∀ b1 b2 : Bool, LocalAcquire cEx envOk sPostedEx true b1 =
      LocalAcquire cEx envOk sPostedEx true b2) ∧
    (LocalAcquire cEx envOk sPostedEx true false).ret = 0 ∧
    (LocalAcquire cEx envOk sPostedEx true false).outFenceWrite =
      some (cEx.sharedAcquireFence.Duplicate envOk.dupOk) :=
  C9_out_fence_not_null_checked cEx envOk sPostedEx true (by decide) (by decide)

set_option linter.unusedVariables false in
/-- C10: in `LocalRelease` (and so in `ReleaseAsync`) the capacity check on
the requested user-metadata size runs before the Acquired-state check: an
oversized size on a buffer that is not in the Acquired state yields
`-EINVAL`, not the state-conflict error `-EBUSY`, and no shared-memory write
occurs. -/
theorem C10_capacity_before_state (c : ConsumerBuffer) (env : Env)
    (s : SharedState) (meta : DvrNativeBufferMetadata) (src : List Nat)
    (f : LocalHandle)
    (hover : c.userMetadataCapacity < meta.user_metadata_size)
    (hacq : IsBufferAcquired s.bufferState = false) :
    (LocalRelease c env s meta src f).ret = -EINVAL ∧
    (LocalRelease c env s meta src f).ret ≠ -EBUSY ∧
    (LocalRelease c env s meta src f).shared = s ∧
    (ReleaseAsync c env s meta src f).ret = -EINVAL ∧
    (ReleaseAsync c env s meta src f).shared = s := by
  have hl := localRelease_over c env s meta src f hover
  refine ⟨?_, ?_, ?_, ?_, ?_⟩ <;> simp [ReleaseAsync, hl, EINVAL, EBUSY]

/-- C10 witness: the theorem applied at a concrete idle buffer with capacity
8 and requested size 9. -/
theorem C10_witness :
    (LocalRelease cEx envOk sIdleEx ⟨9, 700, []⟩ [5] ⟨9⟩).ret = -EINVAL ∧
    (LocalRelease cEx envOk sIdleEx ⟨9, 700, []⟩ [5] ⟨9⟩).ret ≠ -EBUSY ∧
    (LocalRelease cEx envOk sIdleEx ⟨9, 700, []⟩ [5] ⟨9⟩).shared = sIdleEx ∧
    (ReleaseAsync cEx envOk sIdleEx ⟨9, 700, []⟩ [5] ⟨9⟩).ret = -EINVAL ∧
    (ReleaseAsync cEx envOk sIdleEx ⟨9, 700, []⟩ [5] ⟨9⟩).shared = sIdleEx :=
  C10_capacity_before_state cEx envOk sIdleEx ⟨9, 700, []⟩ [5] ⟨9⟩
    (by decide) (by decide)

end BufferHub
